import Mathlib

set_option maxRecDepth 1000000

/-!
Shallow embedding of the mosaic tile-cache subsystem of
ProClime-World/carbonprojectviewer.

Sources embedded:
- `src/unnamed/part_007` : `ClientMosaicApi` (client hash / tile URLs) and
  `LocalMosaicStorage` (hashing, metadata, tiles, listing, cleanup).
- `src/unnamed/part_009` : `MosaicDownloader` (pipeline orchestrator).
- `src/lib/sentinelMosaic.ts` : `SentinelMosaicService.selectBestScenes`.
- `src/app/api/mosaic-tiles/[...params]/route.ts` : tile GET endpoint.

Modelling conventions: JavaScript numbers holding geographic coordinates are
modelled as `ℚ` (exact arithmetic; all concrete inputs used are far from any
binary-rounding boundary), 32-bit integer operations as `Int`/`Nat` arithmetic
with explicit reduction mod 2^32, byte buffers as `List Nat`, the tile
directory tree as an association list keyed by directory name, and wall-clock
time as an `Int` (days). `Buffer`/`fetch`/`sharp` behaviour is abstracted into
an explicit environment of functions returning `Option` (`none` = the
call failed / threw, which the source catches). Node's
`createHash('md5')` is modelled by a full implementation of RFC 1321 MD5.
-/

namespace CPV

/-! ## 32-bit helpers and hex printing -/

/-- Reduce a natural number to 32 bits (JavaScript `>>> 0` / C `uint32_t`). -/
def u32 (n : Nat) : Nat := n % 4294967296

/-- JavaScript `ToInt32`: reduce an integer to a signed 32-bit value. -/
def toInt32 (n : Int) : Int := (n + 2147483648) % 4294967296 - 2147483648

/-- Lowercase hexadecimal digit for `d < 16` (as produced by
`Number.prototype.toString(16)` and Node's `digest('hex')`). -/
def hexDigit (d : Nat) : Char :=
  if d < 10 then Char.ofNat (48 + d) else Char.ofNat (87 + d)

/-- Hex digits of `n`, most significant first, with `fuel` bounding the digit
count; returns `acc` reversed onto the result. -/
def toHexAux : Nat → Nat → List Char → List Char
  | 0, _, acc => acc
  | _ + 1, 0, acc => acc
  | fuel + 1, n, acc => toHexAux fuel (n / 16) (hexDigit (n % 16) :: acc)

/-- JavaScript `n.toString(16)` for a natural number below 2^32:
lowercase hex, `"0"` for zero, no leading zeros. -/
def natToHex (n : Nat) : String :=
  if n = 0 then "0" else String.mk (toHexAux 8 n [])

/-- Two-digit lowercase hex of a byte (Node `digest('hex')` format). -/
def byteToHex (b : Nat) : List Char := [hexDigit (b / 16), hexDigit (b % 16)]

/-! ## MD5 (RFC 1321), as performed by Node's `createHash('md5')` -/

/-- 32-bit left rotation. -/
def rotl (x s : Nat) : Nat := u32 (x <<< s) ||| (u32 x) >>> (32 - s)

/-- The 64 MD5 sine-derived constants `K[i] = floor(2^32 * |sin(i+1)|)`. -/
def md5K : List Nat :=
  [0xd76aa478, 0xe8c7b756, 0x242070db, 0xc1bdceee,
   0xf57c0faf, 0x4787c62a, 0xa8304613, 0xfd469501,
   0x698098d8, 0x8b44f7af, 0xffff5bb1, 0x895cd7be,
   0x6b901122, 0xfd987193, 0xa679438e, 0x49b40821,
   0xf61e2562, 0xc040b340, 0x265e5a51, 0xe9b6c7aa,
   0xd62f105d, 0x02441453, 0xd8a1e681, 0xe7d3fbc8,
   0x21e1cde6, 0xc33707d6, 0xf4d50d87, 0x455a14ed,
   0xa9e3e905, 0xfcefa3f8, 0x676f02d9, 0x8d2a4c8a,
   0xfffa3942, 0x8771f681, 0x6d9d6122, 0xfde5380c,
   0xa4beea44, 0x4bdecfa9, 0xf6bb4b60, 0xbebfbc70,
   0x289b7ec6, 0xeaa127fa, 0xd4ef3085, 0x04881d05,
   0xd9d4d039, 0xe6db99e5, 0x1fa27cf8, 0xc4ac5665,
   0xf4292244, 0x432aff97, 0xab9423a7, 0xfc93a039,
   0x655b59c3, 0x8f0ccc92, 0xffeff47d, 0x85845dd1,
   0x6fa87e4f, 0xfe2ce6e0, 0xa3014314, 0x4e0811a1,
   0xf7537e82, 0xbd3af235, 0x2ad7d2bb, 0xeb86d391]

/-- The 64 MD5 per-round left-rotation amounts. -/
def md5S : List Nat :=
  [7, 12, 17, 22, 7, 12, 17, 22, 7, 12, 17, 22, 7, 12, 17, 22,
   5, 9, 14, 20, 5, 9, 14, 20, 5, 9, 14, 20, 5, 9, 14, 20,
   4, 11, 16, 23, 4, 11, 16, 23, 4, 11, 16, 23, 4, 11, 16, 23,
   6, 10, 15, 21, 6, 10, 15, 21, 6, 10, 15, 21, 6, 10, 15, 21]

/-- 32-bit bitwise complement. -/
def not32 (x : Nat) : Nat := 4294967295 ^^^ (u32 x)

/-- MD5 working state: the four 32-bit registers. -/
structure MD5State where
  a : Nat
  b : Nat
  c : Nat
  d : Nat
deriving DecidableEq, Repr

/-- One MD5 round `i` (0..63) on state over message words `m` (16 words). -/
def md5Round (m : List Nat) (st : MD5State) (i : Nat) : MD5State :=
  let f :=
    if i < 16 then (st.b &&& st.c) ||| (not32 st.b &&& st.d)
    else if i < 32 then (st.d &&& st.b) ||| (not32 st.d &&& st.c)
    else if i < 48 then st.b ^^^ st.c ^^^ st.d
    else st.c ^^^ (st.b ||| not32 st.d)
  let g :=
    if i < 16 then i
    else if i < 32 then (5 * i + 1) % 16
    else if i < 48 then (3 * i + 5) % 16
    else (7 * i) % 16
  let tmp := u32 (f + st.a + md5K.getD i 0 + m.getD g 0)
  { a := st.d, b := u32 (st.b + rotl tmp (md5S.getD i 0)), c := st.b, d := st.c }

/-- Split a 64-byte chunk (little-endian) into sixteen 32-bit words. -/
def chunkWords (chunk : List Nat) : List Nat :=
  (List.range 16).map fun j =>
    chunk.getD (4 * j) 0 + 256 * chunk.getD (4 * j + 1) 0 +
      65536 * chunk.getD (4 * j + 2) 0 + 16777216 * chunk.getD (4 * j + 3) 0

/-- Process one 64-byte chunk: run the 64 rounds and add into the state. -/
def md5Chunk (st : MD5State) (chunk : List Nat) : MD5State :=
  let m := chunkWords chunk
  let r := (List.range 64).foldl (md5Round m) st
  { a := u32 (st.a + r.a), b := u32 (st.b + r.b),
    c := u32 (st.c + r.c), d := u32 (st.d + r.d) }

/-- Process the padded message 64 bytes at a time (`fuel` bounds recursion;
the padded message length is a multiple of 64 and `fuel ≥ length / 64`). -/
def md5Chunks : Nat → MD5State → List Nat → MD5State
  | 0, st, _ => st
  | _ + 1, st, [] => st
  | fuel + 1, st, bytes => md5Chunks fuel (md5Chunk st (bytes.take 64)) (bytes.drop 64)

/-- MD5 padding: append `0x80`, zero bytes to 56 mod 64, then the 64-bit
little-endian bit length of the original message. -/
def md5Pad (msg : List Nat) : List Nat :=
  let len := msg.length
  let zeros := (64 + 55 - len % 64) % 64
  let bitLen := 8 * len
  msg ++ 0x80 :: List.replicate zeros 0 ++
    (List.range 8).map fun j => bitLen / 256 ^ j % 256

/-- Little-endian bytes of a 32-bit word. -/
def wordBytes (w : Nat) : List Nat :=
  [w % 256, w / 256 % 256, w / 65536 % 256, w / 16777216 % 256]

/-- MD5 digest of a byte list, as 16 bytes. -/
def md5Bytes (msg : List Nat) : List Nat :=
  let padded := md5Pad msg
  let st := md5Chunks (padded.length / 64) ⟨0x67452301, 0xefcdab89, 0x98badcfe, 0x10325476⟩ padded
  wordBytes st.a ++ wordBytes st.b ++ wordBytes st.c ++ wordBytes st.d

/-- Byte codes of a string (the strings hashed by this system are ASCII, so
UTF-8 bytes and UTF-16 code units coincide with the code points). -/
def strBytes (s : String) : List Nat := s.data.map Char.toNat

/-- Node `createHash('md5').update(s).digest('hex')`. -/
def md5Hex (s : String) : String :=
  String.mk ((md5Bytes (strBytes s)).flatMap byteToHex)

/-! ## Bounding boxes, JavaScript rounding and `JSON.stringify` of the config

`src/unnamed/part_007` lines 63-71 (client) and 169-175 (server) both build
`\x7b year, bbox: bbox.map(coord => Math.round(coord * 1000) / 1000) \x7d`
and serialize it with `JSON.stringify`. -/

/-- A bounding box `[west, south, east, north]`. -/
structure Bbox where
  west : ℚ
  south : ℚ
  east : ℚ
  north : ℚ
deriving DecidableEq, Repr

/-- JavaScript `Math.round`: round half toward positive infinity,
i.e. `⌊q + 1/2⌋` (`Rat.floor` is the floor function of `ℚ`). -/
def jsRound (q : ℚ) : Int := Rat.floor (q + 1 / 2)

/-- Value of `Math.round(coord * 1000)`: the rounded coordinate in thousandths of a
degree; `Math.round(coord*1000)/1000` is then `roundCoord coord / 1000`.
Computed on the exact representation `coord = coord.num / coord.den`:
`⌊1000·coord + 1/2⌋ = (2000·num + den) ediv (2·den)` — the theorem
`roundCoord_eq_jsRound` below proves this equal to `jsRound (coord * 1000)`. -/
def roundCoord (coord : ℚ) : Int :=
  Int.ediv (2000 * coord.num + coord.den) (2 * coord.den)

/-- The four rounded coordinates, in `bbox.map` order. -/
def roundedBbox (b : Bbox) : List Int :=
  [roundCoord b.west, roundCoord b.south, roundCoord b.east, roundCoord b.north]

/-- Digits of `n` in decimal, most significant first (`fuel` bounds length). -/
def decDigitsAux : Nat → Nat → List Char → List Char
  | 0, _, acc => acc
  | _ + 1, 0, acc => acc
  | fuel + 1, n, acc => decDigitsAux fuel (n / 10) (Nat.digitChar (n % 10) :: acc)

/-- Decimal rendering of a natural number, as JavaScript prints integers. -/
def natToDec (n : Nat) : String :=
  if n = 0 then "0" else String.mk (decDigitsAux 30 n [])

/-- Drop trailing `'0'` characters. -/
def dropTrailingZeros (cs : List Char) : List Char :=
  ((cs.reverse).dropWhile (· == '0')).reverse

/-- Rendering by `JSON.stringify` of the JavaScript number `k / 1000` (`k` the value in
thousandths): shortest decimal form, e.g. `1000 ↦ "1"`, `1001 ↦ "1.001"`,
`-500 ↦ "-0.5"`, `0 ↦ "0"` (also for JavaScript's `-0`). -/
def thousandthsToString (k : Int) : String :=
  let n := k.natAbs
  let ipart := natToDec (n / 1000)
  let f := n % 1000
  let s :=
    if f = 0 then ipart
    else ipart ++ "." ++ String.mk (dropTrailingZeros
      [Nat.digitChar (f / 100), Nat.digitChar (f / 10 % 10), Nat.digitChar (f % 10)])
  if k < 0 then "-" ++ s else s

/-- Rendering by `JSON.stringify` of a year (an integer-valued JavaScript number). -/
def intToDec (i : Int) : String :=
  if i < 0 then "-" ++ natToDec i.natAbs else natToDec i.natAbs

/-- The string `JSON.stringify(\x7b year, bbox: bbox.map(c => Math.round(c*1000)/1000) \x7d)`
— the exact string both hash paths feed to their hash function. -/
def serializeConfig (year : Int) (b : Bbox) : String :=
  "\x7b\"year\":" ++ intToDec year ++ ",\"bbox\":[" ++
    String.intercalate "," ((roundedBbox b).map thousandthsToString) ++ "]\x7d"

/-! ## The two hash functions (claim C1's two paths) -/

/-- Server write-path hash, `LocalMosaicStorage.generateMosaicHash`
(part_007 lines 169-175): MD5 hex of the serialized rounded config. -/
def generateMosaicHash (year : Int) (b : Bbox) : String :=
  md5Hex (serializeConfig year b)

/-- One step of the client rolling hash:
`hash = ((hash << 5) - hash) + char; hash = hash & hash` (32-bit). -/
def clientHashStep (h : Int) (c : Nat) : Int :=
  toInt32 (toInt32 (h * 32) - h + c)

/-- Client-side `ClientMosaicApi.generateHash` (part_007 lines 107-116):
31-fold rolling hash over UTF-16 code units, then `Math.abs(h).toString(16)`. -/
def clientGenerateHash (s : String) : String :=
  natToHex (Int.natAbs (s.data.foldl (fun h c => clientHashStep h c.toNat) 0))

/-- Client `ClientMosaicApi.getTileUrl` (part_007 lines 63-71): rounds the bbox,
serializes the config, hashes it with the client rolling hash. -/
def clientGetTileUrl (year : Int) (b : Bbox) (z x y : Int) (format : String) : String :=
  "/api/mosaic-tiles/" ++ clientGenerateHash (serializeConfig year b) ++ "/" ++
    intToDec z ++ "/" ++ intToDec x ++ "/" ++ intToDec y ++ "." ++ format

/-- Server `LocalMosaicStorage.getTileUrl` (part_007 lines 263-266): same URL shape
with the MD5 hash the write path uses. -/
def serverGetTileUrl (year : Int) (b : Bbox) (z x y : Int) (format : String) : String :=
  "/api/mosaic-tiles/" ++ generateMosaicHash year b ++ "/" ++
    intToDec z ++ "/" ++ intToDec x ++ "/" ++ intToDec y ++ "." ++ format

/-! ## LocalMosaicStorage state model

The on-disk layout is `tiles/<hash>/metadata.json` plus
`tiles/<hash>/<z>/<x>/<y>.<format>`. We model the `tiles` directory as an
association list from directory name to directory contents, in
`readdirSync` order; a `metadata.json` file either parses into a record
(`JSON.parse` succeeds) or is garbage (`JSON.parse` throws, caught by the
source). `downloadDate` (an ISO string parsed with `new Date`) is modelled
as an `Int` count of days. -/

/-- Record type `LocalMosaicInfo` (part_007 lines 127-135). -/
structure MosaicRecord where
  year : Int
  bbox : Bbox
  hash : String
  downloadDate : Int
  tileCount : Nat
  totalSize : Nat
  scenes : List String
deriving DecidableEq, Repr

/-- Content of a `metadata.json` file: parseable into a record, or garbage. -/
inductive MetaContent where
  | parsable (r : MosaicRecord)
  | garbage
deriving DecidableEq, Repr

/-- One mosaic directory `tiles/<hash>/`: an optional `metadata.json` and the
tile files keyed by `(z, x, y, format)` with their byte contents. -/
structure MosaicDir where
  metadata : Option MetaContent
  tiles : List ((Int × Int × Int × String) × List Nat)
deriving DecidableEq, Repr

/-- The `tiles` directory: directory name ↦ contents, in listing order. -/
abbrev Store := List (String × MosaicDir)

/-- Method `LocalMosaicStorage.hasMosaic` (part_007 lines 178-182):
`existsSync(mosaicDir) && existsSync(mosaicDir/metadata.json)` — the file
merely has to exist, its content is not read. -/
def hasMosaic (s : Store) (year : Int) (b : Bbox) : Bool :=
  match s.lookup (generateMosaicHash year b) with
  | some d => d.metadata.isSome
  | none => false

/-- Read and parse a directory's `metadata.json`; `none` when the file is
missing or `JSON.parse` throws. -/
def readMeta (d : MosaicDir) : Option MosaicRecord :=
  match d.metadata with
  | some (.parsable r) => some r
  | _ => none

/-- Method `LocalMosaicStorage.getMosaicInfo` (part_007 lines 185-201): `null` when
`metadata.json` is missing or unparseable, else the parsed record. -/
def getMosaicInfo (s : Store) (year : Int) (b : Bbox) : Option MosaicRecord :=
  match s.lookup (generateMosaicHash year b) with
  | some d => readMeta d
  | none => none

/-- Method `LocalMosaicStorage.saveMosaicInfo` (part_007 lines 204-214): creates the
directory named `info.hash` if absent and overwrites its `metadata.json`. -/
def saveMosaicInfo : Store → MosaicRecord → Store
  | [], info => [(info.hash, { metadata := some (.parsable info), tiles := [] })]
  | (n, d) :: rest, info =>
    if n = info.hash then (n, { d with metadata := some (.parsable info) }) :: rest
    else (n, d) :: saveMosaicInfo rest info

/-- Overwrite-or-append a tile file inside one directory. -/
def putTile (ts : List ((Int × Int × Int × String) × List Nat))
    (key : Int × Int × Int × String) (data : List Nat) :
    List ((Int × Int × Int × String) × List Nat) :=
  match ts with
  | [] => [(key, data)]
  | (k, v) :: rest =>
    if k = key then (k, data) :: rest else (k, v) :: putTile rest key data

/-- Method `LocalMosaicStorage.saveTile` (part_007 lines 217-236): writes
`tiles/<hash>/<z>/<x>/<y>.<format>`, creating directories on demand. -/
def saveTile (s : Store) (year : Int) (b : Bbox) (z x y : Int)
    (data : List Nat) (format : String) : Store :=
  let h := generateMosaicHash year b
  match s with
  | [] => [(h, { metadata := none, tiles := [((z, x, y, format), data)] })]
  | (n, d) :: rest =>
    if n = h then (n, { d with tiles := putTile d.tiles (z, x, y, format) data }) :: rest
    else (n, d) :: saveTile rest year b z x y data format

/-- Method `LocalMosaicStorage.getTile` (part_007 lines 239-260): `null` when the
tile file does not exist. -/
def getTile (s : Store) (year : Int) (b : Bbox) (z x y : Int)
    (format : String) : Option (List Nat) :=
  match s.lookup (generateMosaicHash year b) with
  | some d => d.tiles.lookup (z, x, y, format)
  | none => none

/-- Method `LocalMosaicStorage.listMosaics` (part_007 lines 269-291): walks the
directories in order; skips a directory with no `metadata.json`
(`existsSync` guard) and skips one whose metadata fails to parse (the
`catch` branch logs and continues). -/
def listMosaics : Store → List MosaicRecord
  | [] => []
  | (_, d) :: rest =>
    match d.metadata with
    | some (.parsable r) => r :: listMosaics rest
    | _ => listMosaics rest

/-- Method `LocalMosaicStorage.deleteMosaic` (part_007 lines 294-301): removes the
whole directory `tiles/<hash(year,bbox)>` if it exists. -/
def deleteMosaic (s : Store) (year : Int) (b : Bbox) : Store :=
  s.filter fun e => ¬ (e.1 = generateMosaicHash year b)

/-- Result shape of `LocalMosaicStorage.getStorageStats`. -/
structure StorageStats where
  totalMosaics : Nat
  totalSize : Nat
  totalTiles : Nat
  mosaics : List MosaicRecord
deriving DecidableEq, Repr

/-- Method `LocalMosaicStorage.getStorageStats` (part_007 lines 303-320): lists the
mosaics and `reduce`s their sizes and tile counts. -/
def getStorageStats (s : Store) : StorageStats :=
  let mosaics := listMosaics s
  let totalSize := mosaics.foldl (fun sum m => sum + m.totalSize) 0
  let totalTiles := mosaics.foldl (fun sum m => sum + m.tileCount) 0
  { totalMosaics := mosaics.length, totalSize := totalSize,
    totalTiles := totalTiles, mosaics := mosaics }

/-- Method `LocalMosaicStorage.cleanupOldMosaics` (part_007 lines 322-339): computes
`cutoff = now - daysOld`, lists the mosaics once, deletes each listed record
with `downloadDate < cutoff` and counts the deletions. -/
def cleanupOldMosaics (s : Store) (now daysOld : Int) : Store × Nat :=
  let cutoffDate := now - daysOld
  let mosaics := listMosaics s
  mosaics.foldl
    (fun acc m =>
      if m.downloadDate < cutoffDate then
        (deleteMosaic acc.1 m.year m.bbox, acc.2 + 1)
      else acc)
    (s, 0)

/-! ## Scene catalog and selection (`src/lib/sentinelMosaic.ts`) -/

/-- The fields of a `SentinelItem` the pipeline reads: id, `eo:cloud_cover`,
`eo:sun_elevation` and the optional `assets.visual.href`. -/
structure Scene where
  id : String
  cloudCover : ℚ
  sunElevation : ℚ
  visualHref : Option String
deriving DecidableEq, Repr

/-- The order imposed by the comparator in `selectBestScenes`
(sentinelMosaic.ts lines 118-123): cloud cover ascending, ties broken by sun
elevation descending. -/
def sceneLE (a b : Scene) : Prop :=
  a.cloudCover < b.cloudCover ∨
    (a.cloudCover = b.cloudCover ∧ b.sunElevation ≤ a.sunElevation)

instance : DecidableRel sceneLE := fun a b => by
  unfold sceneLE; infer_instance

/-- Method `SentinelMosaicService.selectBestScenes` (sentinelMosaic.ts lines
116-125): stable sort by the comparator, then `slice(0, maxScenes)`.
(JavaScript `Array.prototype.sort` is stable; with this consistent
comparator its output is the unique stable sort, here realised by
`List.insertionSort`.) -/
def selectBestScenes (items : List Scene) (maxScenes : Nat) : List Scene :=
  (items.insertionSort sceneLE).take maxScenes

/-! ## MosaicDownloader (`src/unnamed/part_009`)

The orchestrator's effects — the catalog query, per-scene `fetch`, and the
two `sharp` invocations — are supplied as an environment; `none` models a
failed response or a thrown error (which the source catches). The run
result records the final store, the sequence of reported progress stages,
and counters for catalog calls, scene fetches and tile writes. -/

/-- Progress stages of `DownloadProgress` (part_009 lines 10-16). -/
inductive Stage where
  | searching
  | downloading
  | processing
  | tiling
  | complete
deriving DecidableEq, Repr

/-- Effect environment for a `downloadMosaic` run. -/
structure DownloadEnv where
  /-- Result of `sentinelMosaicService.getMosaicForYear` (a successful
  catalog search; its `features` list). -/
  catalog : List Scene
  /-- `fetch(href)` + `arrayBuffer()` for a scene's visual asset; `none`
  when `response.ok` is false or the fetch throws. -/
  fetchScene : String → Option (List Nat)
  /-- `sharp(buffer).resize(2048,...).jpeg(...).toBuffer()`; `none` when
  sharp throws (caught by `processScenes`). -/
  sharpNormalize : List Nat → Option (List Nat)
  /-- `sharp(sceneData).resize(tileSize,...).png().toBuffer()`; `none` when
  sharp throws (caught by `generateTileFromScenes`). -/
  sharpTile : List Nat → Nat → Option (List Nat)
  /-- `new Date().toISOString()`, as a day count. -/
  now : Int

/-- A scene after `processScenes` normalized it. -/
structure ProcessedScene where
  id : String
  data : List Nat
  cloudCover : ℚ
  sunElevation : ℚ
deriving DecidableEq, Repr

/-- Method `MosaicDownloader.processScenes` (part_009 lines 89-125): per scene,
if it has a visual asset, fetch it (counting the network call) and
normalize it; any failure drops just that scene. Returns the processed
scenes and the number of fetch calls made. -/
def processScenes (env : DownloadEnv) : List Scene → List ProcessedScene × Nat
  | [] => ([], 0)
  | scene :: rest =>
    let (tail, calls) := processScenes env rest
    match scene.visualHref with
    | none => (tail, calls)
    | some href =>
      match env.fetchScene href with
      | none => (tail, calls + 1)
      | some buffer =>
        match env.sharpNormalize buffer with
        | none => (tail, calls + 1)
        | some processed =>
          ({ id := scene.id, data := processed, cloudCover := scene.cloudCover,
             sunElevation := scene.sunElevation } :: tail, calls + 1)

/-- Method `MosaicDownloader.generateTileFromScenes` (part_009 lines 161-186):
`null` on an empty scene list; otherwise renders the first scene (errors
from sharp are caught and become `null`). -/
def generateTileFromScenes (env : DownloadEnv) (scenes : List ProcessedScene)
    (tileSize : Nat) : Option (List Nat) :=
  match scenes with
  | [] => none
  | scene :: _ => env.sharpTile scene.data tileSize

/-- Method `MosaicDownloader.generateTiles` (part_009 lines 127-159): for each zoom
`0..maxZoom` and each `(x, y)` in the `2^z × 2^z` grid, generate a tile and,
when generation succeeded, save it as png and count the write. -/
def generateTiles (env : DownloadEnv) (scenes : List ProcessedScene)
    (year : Int) (b : Bbox) (maxZoom tileSize : Nat) (s : Store) : Store × Nat :=
  (List.range (maxZoom + 1)).foldl
    (fun acc z =>
      (List.range (2 ^ z)).foldl
        (fun acc x =>
          (List.range (2 ^ z)).foldl
            (fun acc y =>
              match generateTileFromScenes env scenes tileSize with
              | some tileData =>
                (saveTile acc.1 year b (Int.ofNat z) (Int.ofNat x) (Int.ofNat y)
                  tileData "png", acc.2 + 1)
              | none => acc)
            acc)
        acc)
    (s, 0)

/-- Method `MosaicDownloader.calculateTotalSize` (part_009 lines 188-207): sum of
the sizes of all files under `tiles/<hash>/` (the tiles written so far;
`metadata.json` is written afterwards). -/
def calculateTotalSize (s : Store) (year : Int) (b : Bbox) : Nat :=
  match s.lookup (generateMosaicHash year b) with
  | some d => d.tiles.foldl (fun sum t => sum + t.2.length) 0
  | none => 0

/-- Outcome of a `downloadMosaic` run. -/
structure DownloadOut where
  result : Except String MosaicRecord
  store : Store
  stages : List Stage
  catalogCalls : Nat
  fetchCalls : Nat
  tileWrites : Nat

/-- Method `MosaicDownloader.downloadMosaic` (part_009 lines 26-87): report
`searching`; short-circuit on an existing readable record; otherwise query
the catalog (fatal if it returns zero scenes), select the best 5 scenes,
process them, tile, and persist the new record. `stages` records the
distinct stage values in reporting order (consecutive duplicates merged). -/
def downloadMosaic (env : DownloadEnv) (s : Store) (year : Int) (b : Bbox)
    (maxZoom : Nat) (tileSize : Nat) : DownloadOut :=
  match getMosaicInfo s year b with
  | some existingMosaic =>
    { result := .ok existingMosaic, store := s,
      stages := [.searching, .complete],
      catalogCalls := 0, fetchCalls := 0, tileWrites := 0 }
  | none =>
    let items := env.catalog
    if items.length = 0 then
      { result := .error ("No Sentinel-2 data found for " ++ intToDec year),
        store := s, stages := [.searching],
        catalogCalls := 1, fetchCalls := 0, tileWrites := 0 }
    else
      let bestScenes := selectBestScenes items 5
      let (processedScenes, fetchCalls) := processScenes env bestScenes
      let (s1, tileCount) := generateTiles env processedScenes year b maxZoom tileSize s
      let mosaicInfo : MosaicRecord :=
        { year := year, bbox := b, hash := generateMosaicHash year b,
          downloadDate := env.now, tileCount := tileCount,
          totalSize := calculateTotalSize s1 year b,
          scenes := bestScenes.map (·.id) }
      { result := .ok mosaicInfo, store := saveMosaicInfo s1 mosaicInfo,
        stages := [.searching, .downloading, .tiling, .complete],
        catalogCalls := 1, fetchCalls := fetchCalls, tileWrites := tileCount }

/-! ## Tile GET endpoint (`src/app/api/mosaic-tiles/[...params]/route.ts`) -/

/-- The response surface the route produces. -/
structure TileResponse where
  status : Nat
  contentType : Option String
  cacheControl : Option String
  body : Option (List Nat)
deriving DecidableEq, Repr

/-- Split a character list at every occurrence of `c` (the accumulator holds
the current piece reversed). -/
def splitOnCharAux (c : Char) : List Char → List Char → List (List Char)
  | [], acc => [acc.reverse]
  | a :: rest, acc =>
    if a = c then acc.reverse :: splitOnCharAux c rest []
    else splitOnCharAux c rest (a :: acc)

/-- JavaScript `s.split(c)` for a single-character separator: `"" ↦ [""]`,
`"0.png" ↦ ["0", "png"]`, `"a..b" ↦ ["a", "", "b"]`. -/
def jsSplit (s : String) (c : Char) : List String :=
  (splitOnCharAux c s.data []).map String.mk

/-- JavaScript `parseInt(s)` restricted to the strings reachable here
(path segments: no interior whitespace; the `0x` hexadecimal form is not
modelled): optional sign, then the longest leading run of decimal digits;
`NaN` (`none`) when that run is empty. -/
def jsParseInt (s : String) : Option Int :=
  let (neg, rest) :=
    match s.data with
    | '-' :: cs => (true, cs)
    | '+' :: cs => (false, cs)
    | cs => (false, cs)
  let digits := rest.takeWhile (·.isDigit)
  if digits.isEmpty then none
  else
    let n : Nat := digits.foldl (fun acc c => 10 * acc + (c.toNat - 48)) 0
    some (if neg then -(Int.ofNat n) else Int.ofNat n)

/-- The route's `GET` handler (route.ts lines 4-75), as a function of the
path segments after `/api/mosaic-tiles/` (already split on `/` with empty
segments dropped) and the store. The handler's `catch`-all 500 response is
unreachable here: the model has no throwing operations. -/
def routeGET (s : Store) (pathParams : List String) : TileResponse :=
  if pathParams.length < 4 then
    { status := 400, contentType := none, cacheControl := none, body := none }
  else
    let hash := pathParams.getD 0 ""
    let z := pathParams.getD 1 ""
    let x := pathParams.getD 2 ""
    let yWithExt := pathParams.getD 3 ""
    let parts := jsSplit yWithExt '.'
    let y := parts.getD 0 ""
    let ext := parts.getD 1 ""
    if z = "" ∨ x = "" ∨ y = "" ∨ ext = "" then
      { status := 400, contentType := none, cacheControl := none, body := none }
    else
      match jsParseInt z, jsParseInt x, jsParseInt y with
      | some zoom, some tileX, some tileY =>
        if ext = "png" ∨ ext = "jpg" ∨ ext = "webp" then
          match (listMosaics s).find? (fun m => m.hash == hash) with
          | none =>
            { status := 404, contentType := none, cacheControl := none, body := none }
          | some mosaic =>
            match getTile s mosaic.year mosaic.bbox zoom tileX tileY ext with
            | none =>
              { status := 404, contentType := none, cacheControl := none, body := none }
            | some tileData =>
              { status := 200, contentType := some ("image/" ++ ext),
                cacheControl := some "public, max-age=31536000",
                body := some tileData }
        else
          { status := 400, contentType := none, cacheControl := none, body := none }
      | _, _, _ =>
        { status := 400, contentType := none, cacheControl := none, body := none }

/-! ## Well-formedness of a store

A store laid down by the write path keeps each parseable record in the
directory named by the hash of its own `(year, bbox)`; real directory
listings also never repeat a name. Claims about `cleanupOldMosaics` (which
deletes by re-hashing the record it read) need both facts. -/

/-- One entry is well-formed: if its metadata parses to `r`, the directory
is named `generateMosaicHash r.year r.bbox`. -/
def wfEntry (e : String × MosaicDir) : Bool :=
  match e.2.metadata with
  | some (.parsable r) => e.1 == generateMosaicHash r.year r.bbox
  | _ => true

/-- Every entry of the store is well-formed. -/
def WFStore (s : Store) : Prop := ∀ e ∈ s, wfEntry e = true

/-- A directory holds a record due for deletion at the given cutoff. -/
def dirOld (cutoff : Int) (d : MosaicDir) : Bool :=
  match d.metadata with
  | some (.parsable r) => r.downloadDate < cutoff
  | _ => false

/-! ## Concrete instances used by witnesses and counterexamples -/

/-- The spec's example bounding box `[-74.2, 40.5, -73.8, 40.9]`. -/
def exBbox : Bbox := ⟨mkRat (-742) 10, mkRat 405 10, mkRat (-738) 10, mkRat 409 10⟩

/-- A record as the pipeline would store it for `(2020, exBbox)`. -/
def c2Rec : MosaicRecord :=
  { year := 2020, bbox := exBbox, hash := generateMosaicHash 2020 exBbox,
    downloadDate := 50, tileCount := 21, totalSize := 63, scenes := ["s5"] }

/-- A store already holding `c2Rec` under its hash. -/
def c2Store : Store :=
  [(generateMosaicHash 2020 exBbox,
    { metadata := some (.parsable c2Rec), tiles := [((0, 0, 0, "png"), [1, 2])] })]

/-- An environment whose catalog and network are never consulted. -/
def c2Env : DownloadEnv :=
  { catalog := [], fetchScene := fun _ => none, sharpNormalize := fun _ => none,
    sharpTile := fun _ _ => none, now := 60 }

/-- One catalogued scene whose asset download always fails. -/
def c4Env : DownloadEnv :=
  { catalog := [⟨"scene-a", 5, 40, some "href-a"⟩],
    fetchScene := fun _ => none, sharpNormalize := fun b => some b,
    sharpTile := fun d _ => some d, now := 70 }

/-- A store with one complete mosaic (metadata plus its zoom-0 tile). -/
def c5Store : Store :=
  [(generateMosaicHash 2020 exBbox,
    { metadata := some (.parsable c2Rec), tiles := [((0, 0, 0, "png"), [7, 8, 9])] })]

/-- The spec's eight-scene catalog, cloud covers `[5,12,30,8,3,19,25,11]`. -/
def c8Scenes : List Scene :=
  [⟨"s1", 5, 40, some "u1"⟩, ⟨"s2", 12, 41, some "u2"⟩,
   ⟨"s3", 30, 42, some "u3"⟩, ⟨"s4", 8, 43, some "u4"⟩,
   ⟨"s5", 3, 44, some "u5"⟩, ⟨"s6", 19, 45, some "u6"⟩,
   ⟨"s7", 25, 46, some "u7"⟩, ⟨"s8", 11, 47, some "u8"⟩]

/-- Environment for the spec's scenario: the eight scenes, every fetch and
every sharp call succeeding. -/
def c8Env : DownloadEnv :=
  { catalog := c8Scenes, fetchScene := fun _ => some [1, 2, 3],
    sharpNormalize := fun b => some b, sharpTile := fun d _ => some d, now := 80 }

/-- A fresh record kept by cleanup. -/
def c7RecNew : MosaicRecord :=
  { year := 2020, bbox := exBbox, hash := generateMosaicHash 2020 exBbox,
    downloadDate := 90, tileCount := 1, totalSize := 2, scenes := [] }

/-- A stale record due for cleanup. -/
def c7RecOld : MosaicRecord :=
  { year := 2021, bbox := exBbox, hash := generateMosaicHash 2021 exBbox,
    downloadDate := 10, tileCount := 3, totalSize := 4, scenes := [] }

/-- A store holding one fresh and one stale mosaic. -/
def c7Store : Store :=
  [(generateMosaicHash 2020 exBbox,
    { metadata := some (.parsable c7RecNew), tiles := [((0, 0, 0, "png"), [5])] }),
   (generateMosaicHash 2021 exBbox,
    { metadata := some (.parsable c7RecOld), tiles := [] })]

/-! # Theorems -/

/-! ## General lemmas -/

/-- The integer-arithmetic implementation of `roundCoord` agrees with
`Math.round(coord * 1000)` = `⌊coord·1000 + 1/2⌋`. -/
theorem roundCoord_eq_jsRound (c : ℚ) : roundCoord c = jsRound (c * 1000) := by
  have hden : ((c.den : ℚ)) ≠ 0 := Nat.cast_ne_zero.mpr c.den_nz
  have hnum : (c.num : ℚ) = c * c.den :=
    (div_eq_iff hden).mp (Rat.num_div_den c)
  have key : (c * 1000 + 1 / 2 : ℚ) =
      ((2000 * c.num + (c.den : ℤ) : ℤ) : ℚ) / ((2 * c.den : ℕ) : ℚ) := by
    rw [eq_div_iff (by push_cast; positivity)]
    push_cast [hnum]
    ring
  have hfl : jsRound (c * 1000) = ⌊(c * 1000 + 1 / 2 : ℚ)⌋ := by
    unfold jsRound
    rw [Rat.floor_def', Rat.floor_def]
  rw [hfl, key, Rat.floor_intCast_div_natCast]
  unfold roundCoord
  push_cast
  rfl

/-! ## General lemmas about the storage model -/

theorem foldl_add_map {α : Type} (f : α → Nat) :
    ∀ (l : List α) (a : Nat), l.foldl (fun sum m => sum + f m) a = a + (l.map f).sum
  | [], a => by simp
  | m :: t, a => by
    simp [List.foldl_cons, foldl_add_map f t, Nat.add_assoc]

theorem listMosaics_cons_parsable (n : String) (d : MosaicDir) (r : MosaicRecord)
    (s : Store) (h : d.metadata = some (.parsable r)) :
    listMosaics ((n, d) :: s) = r :: listMosaics s := by
  simp [listMosaics, h]

theorem listMosaics_cons_skip (n : String) (d : MosaicDir) (s : Store)
    (h : readMeta d = none) :
    listMosaics ((n, d) :: s) = listMosaics s := by
  cases hm : d.metadata with
  | none => simp [listMosaics, hm]
  | some c => cases c with
    | parsable r => exfalso; simp [readMeta, hm] at h
    | garbage => simp [listMosaics, hm]

theorem listMosaics_append : ∀ s₁ s₂ : Store,
    listMosaics (s₁ ++ s₂) = listMosaics s₁ ++ listMosaics s₂
  | [], s₂ => by simp [listMosaics]
  | (n, d) :: t, s₂ => by
    cases hm : d.metadata with
    | none =>
      rw [List.cons_append, listMosaics_cons_skip n d _ (by simp [readMeta, hm]),
        listMosaics_cons_skip n d t (by simp [readMeta, hm]), listMosaics_append t s₂]
    | some c => cases c with
      | parsable r =>
        rw [List.cons_append, listMosaics_cons_parsable n d r _ hm,
          listMosaics_cons_parsable n d r t hm, listMosaics_append t s₂,
          List.cons_append]
      | garbage =>
        rw [List.cons_append, listMosaics_cons_skip n d _ (by simp [readMeta, hm]),
          listMosaics_cons_skip n d t (by simp [readMeta, hm]), listMosaics_append t s₂]

theorem mem_listMosaics (r : MosaicRecord) : ∀ s : Store,
    r ∈ listMosaics s ↔ ∃ e ∈ s, e.2.metadata = some (.parsable r)
  | [] => by simp [listMosaics]
  | (n, d) :: t => by
    cases hm : d.metadata with
    | none =>
      rw [listMosaics_cons_skip n d t (by simp [readMeta, hm]), mem_listMosaics r t]
      simp_all
    | some c => cases c with
      | parsable r' =>
        rw [listMosaics_cons_parsable n d r' t hm]
        simp only [List.mem_cons, mem_listMosaics r t]
        constructor
        · rintro (rfl | ⟨e, he, hmeta⟩)
          · exact ⟨(n, d), by simp [hm]⟩
          · exact ⟨e, by simp [he], hmeta⟩
        · rintro ⟨e, he, hmeta⟩
          rcases he with rfl | he'
          · left
            rw [hm] at hmeta
            injection hmeta with h
            injection h with h2
            exact h2.symm
          · right; exact ⟨e, he', hmeta⟩
      | garbage =>
        rw [listMosaics_cons_skip n d t (by simp [readMeta, hm]), mem_listMosaics r t]
        simp_all

/-! ## Claim C10 -/

/-- C10: `getStorageStats` is the homomorphic fold of `listMosaics`:
`totalMosaics` is its length, `totalSize` and `totalTiles` the sums of the
records' `totalSize` and `tileCount`, and `mosaics` the listing itself. -/
theorem getStorageStats_is_fold_of_listMosaics (s : Store) :
    (getStorageStats s).totalMosaics = (listMosaics s).length ∧
    (getStorageStats s).totalSize = ((listMosaics s).map (·.totalSize)).sum ∧
    (getStorageStats s).totalTiles = ((listMosaics s).map (·.tileCount)).sum ∧
    (getStorageStats s).mosaics = listMosaics s := by
  refine ⟨rfl, ?_, ?_, rfl⟩ <;> simp [getStorageStats, foldl_add_map]

/-! ## Claim C9 -/

/-- C9: `listMosaics` is total (it throws nothing: it is a plain function of
the store), skips every entry whose metadata is corrupted, and returns
exactly the records whose metadata parses — so one corrupted
`metadata.json` among valid ones leaves the valid results unchanged. -/
theorem listMosaics_skips_corrupt_returns_valid :
    (∀ (s₁ s₂ : Store) (n : String) (d : MosaicDir), d.metadata = some .garbage →
      listMosaics (s₁ ++ (n, d) :: s₂) = listMosaics s₁ ++ listMosaics s₂) ∧
    (∀ (s : Store) (r : MosaicRecord),
      r ∈ listMosaics s ↔ ∃ e ∈ s, e.2.metadata = some (.parsable r)) := by
  constructor
  · intro s₁ s₂ n d h
    rw [listMosaics_append, listMosaics_cons_skip n d s₂ (by simp [readMeta, h])]
  · intro s r
    exact mem_listMosaics r s

theorem listMosaics_skips_corrupt_returns_valid_witness :
    (MosaicDir.metadata ⟨some .garbage, [((0, 0, 0, "png"), [1])]⟩ = some .garbage) ∧
    listMosaics
        ([("a", ⟨some (.parsable c7RecNew), []⟩)] ++
          ("bad", ⟨some .garbage, [((0, 0, 0, "png"), [1])]⟩) ::
            [("b", ⟨some (.parsable c7RecOld), []⟩)]) =
      listMosaics [("a", ⟨some (.parsable c7RecNew), []⟩)] ++
        listMosaics [("b", ⟨some (.parsable c7RecOld), []⟩)] :=
  ⟨rfl, listMosaics_skips_corrupt_returns_valid.1 _ _ _ _ rfl⟩

/-! ## Claim C3 (corrected) -/

/-- C3 counterexample: the bboxes `[1.0004, 0, 0, 0]` and `[1.0006, 0, 0, 0]`
differ coordinate-wise by at most 0.0002 < 0.0005, yet `1.0004` rounds to
`1` and `1.0006` to `1.001`, so the two hashes differ: rounding to the
nearest 0.001 does not collapse all pairs closer than 0.0005, only pairs in
the same rounding cell. -/
theorem generateMosaicHash_not_collapse_within_precision :
    (|mkRat 10004 10000 - mkRat 10006 10000| < mkRat 5 10000 ∧
      |(0 : ℚ) - 0| < mkRat 5 10000) ∧
    generateMosaicHash 2020 ⟨mkRat 10004 10000, 0, 0, 0⟩ ≠
      generateMosaicHash 2020 ⟨mkRat 10006 10000, 0, 0, 0⟩ := by
  constructor
  · constructor <;> · rw [abs_lt]; constructor <;> norm_num [Rat.mkRat_eq_div]
  · decide

/-- C3 amended: `generateMosaicHash` is deterministic (equal inputs give
equal hashes on every invocation), and any two bboxes whose coordinates
round to the same multiples of 0.001 — in particular any two in the same
rounding cell — map to the same hash. (Coordinates differing by less than
0.0005 may straddle a cell boundary and hash differently; see the
counterexample.) -/
theorem generateMosaicHash_det_and_collapses_rounded :
    (∀ (year : Int) (b : Bbox), generateMosaicHash year b = generateMosaicHash year b) ∧
    (∀ (year : Int) (b₁ b₂ : Bbox), roundedBbox b₁ = roundedBbox b₂ →
      generateMosaicHash year b₁ = generateMosaicHash year b₂) := by
  refine ⟨fun _ _ => rfl, fun year b₁ b₂ h => ?_⟩
  unfold generateMosaicHash serializeConfig
  rw [h]

theorem generateMosaicHash_det_and_collapses_rounded_witness :
    roundedBbox ⟨1, 0, 0, 0⟩ = roundedBbox ⟨mkRat 10004 10000, 0, 0, 0⟩ ∧
    generateMosaicHash 2020 ⟨1, 0, 0, 0⟩ =
      generateMosaicHash 2020 ⟨mkRat 10004 10000, 0, 0, 0⟩ :=
  ⟨by decide, generateMosaicHash_det_and_collapses_rounded.2 2020 _ _ (by decide)⟩

/-! ## Claim C1 (code bug)

Supporting general fact: the client hash is at most 8 hex characters while
an MD5 hex digest is exactly 32, so the two tile URLs differ for every
input, not just the concrete one. -/

theorem flatMap_byteToHex_length : ∀ bs : List Nat,
    (bs.flatMap byteToHex).length = 2 * bs.length
  | [] => rfl
  | b :: t => by
    simp [List.flatMap_cons, byteToHex, flatMap_byteToHex_length t]
    omega

theorem md5Bytes_length (msg : List Nat) : (md5Bytes msg).length = 16 := by
  simp [md5Bytes, wordBytes]

theorem md5Hex_length (s : String) : (md5Hex s).length = 32 := by
  show ((md5Bytes (strBytes s)).flatMap byteToHex).length = 32
  rw [flatMap_byteToHex_length, md5Bytes_length]

theorem toHexAux_length : ∀ (fuel n : Nat) (acc : List Char),
    (toHexAux fuel n acc).length ≤ fuel + acc.length
  | 0, _, acc => by simp [toHexAux]
  | fuel + 1, 0, acc => by unfold toHexAux; omega
  | fuel + 1, n + 1, acc => by
    unfold toHexAux
    calc (toHexAux fuel ((n + 1) / 16) (hexDigit ((n + 1) % 16) :: acc)).length
        ≤ fuel + (hexDigit ((n + 1) % 16) :: acc).length := toHexAux_length _ _ _
      _ ≤ fuel + 1 + acc.length := by simp [List.length_cons]; omega

theorem natToHex_length (n : Nat) : (natToHex n).length ≤ 8 := by
  by_cases h : n = 0
  · subst h; decide
  · unfold natToHex
    rw [if_neg h]
    have := toHexAux_length 8 n []
    simpa [String.length] using this

theorem clientGenerateHash_length (s : String) :
    (clientGenerateHash s).length ≤ 8 := natToHex_length _

/-- For every input, the client-built tile URL differs from the server's:
the two share the identical serialized config and URL shape, but the client
hash has at most 8 characters and the server MD5 exactly 32. -/
theorem clientGetTileUrl_ne_serverGetTileUrl (year : Int) (b : Bbox)
    (z x y : Int) (format : String) :
    clientGetTileUrl year b z x y format ≠ serverGetTileUrl year b z x y format := by
  intro heq
  have hlen := congrArg String.length heq
  simp only [clientGetTileUrl, serverGetTileUrl, String.length_append] at hlen
  have h1 := clientGenerateHash_length (serializeConfig year b)
  have h2 := md5Hex_length (serializeConfig year b)
  unfold generateMosaicHash at hlen
  omega

/-- C1: the claim states the client URL-generation hash equals the server
write-path hash; the code violates it (the client comment even says "same
logic as server" while implementing a different hash). At the concrete input
`(2020, exBbox)` the client rolling hash and the server MD5 differ, and the
tile URLs they produce differ. -/
theorem client_server_hash_mismatch_at_example :
    clientGenerateHash (serializeConfig 2020 exBbox) ≠ generateMosaicHash 2020 exBbox ∧
    clientGetTileUrl 2020 exBbox 5 10 7 "png" ≠ serverGetTileUrl 2020 exBbox 5 10 7 "png" := by
  constructor <;> decide

/-! ## Claim C6 (corrected) -/

/-- C6 counterexample: a directory whose `metadata.json` exists but does not
parse. `hasMosaic` reports the mosaic as present even though no readable
(parseable) record exists — `getMosaicInfo` yields `none` on the same key —
refuting "true iff a readable (parseable) metadata record exists". -/
theorem hasMosaic_true_on_unparseable_metadata :
    hasMosaic [(generateMosaicHash 2020 exBbox,
        { metadata := some .garbage, tiles := [] })] 2020 exBbox = true ∧
    getMosaicInfo [(generateMosaicHash 2020 exBbox,
        { metadata := some .garbage, tiles := [] })] 2020 exBbox = none := by
  constructor <;> decide

/-- C6 amended: `hasMosaic` returns true iff the mosaic directory exists and
contains a `metadata.json` file — whether or not it parses; in particular a
directory holding only tiles (no metadata file) is reported as not present. -/
theorem hasMosaic_iff_metadata_file_exists (s : Store) (year : Int) (b : Bbox) :
    hasMosaic s year b = true ↔
      ∃ d, s.lookup (generateMosaicHash year b) = some d ∧ d.metadata.isSome := by
  unfold hasMosaic
  cases h : s.lookup (generateMosaicHash year b) with
  | none => simp
  | some d => simp [h]

/-! ## Lemmas about the downloader -/

theorem foldl_const {α β : Type} (l : List α) (x : β) :
    l.foldl (fun a _ => a) x = x := by
  induction l generalizing x with
  | nil => rfl
  | cons _ t ih => exact ih x

/-- When every selected scene's asset fails to fetch (or has no asset),
`processScenes` drops them all. -/
theorem processScenes_all_fail (env : DownloadEnv) :
    ∀ scenes : List Scene,
      (∀ sc ∈ scenes, ∀ href, sc.visualHref = some href → env.fetchScene href = none) →
      (processScenes env scenes).1 = []
  | [], _ => rfl
  | scene :: rest, h => by
    have hrest := processScenes_all_fail env rest
      (fun sc hsc href hh => h sc (List.mem_cons_of_mem _ hsc) href hh)
    unfold processScenes
    cases hv : scene.visualHref with
    | none => simpa [hv] using hrest
    | some href =>
      have hf : env.fetchScene href = none := h scene (List.mem_cons_self _ _) href hv
      simp [hv, hf]
      exact hrest

/-- With no processed scene, every tile generation yields `null`, so tiling
writes nothing and counts zero. -/
theorem generateTiles_no_scenes (env : DownloadEnv) (year : Int) (b : Bbox)
    (maxZoom tileSize : Nat) (s : Store) :
    generateTiles env [] year b maxZoom tileSize s = (s, 0) := by
  unfold generateTiles generateTileFromScenes
  simp only [foldl_const]

/-- After `saveMosaicInfo`, looking the record up under its own key finds
exactly the saved record. -/
theorem getMosaicInfo_saveMosaicInfo (year : Int) (b : Bbox) :
    ∀ (s : Store) (info : MosaicRecord), info.hash = generateMosaicHash year b →
      getMosaicInfo (saveMosaicInfo s info) year b = some info
  | [], info, h => by
    simp [saveMosaicInfo, getMosaicInfo, List.lookup, ← h, readMeta]
  | (n, d) :: t, info, h => by
    unfold saveMosaicInfo
    by_cases hn : n = info.hash
    · simp only [if_pos hn]
      simp [getMosaicInfo, List.lookup, hn, ← h, readMeta]
    · simp only [if_neg hn]
      have hne : (generateMosaicHash year b == n) = false := by
        rw [beq_eq_false_iff_ne]
        rw [← h]
        exact fun hx => hn hx.symm
      simp only [getMosaicInfo, List.lookup, hne]
      exact getMosaicInfo_saveMosaicInfo year b t info h

/-! ## Claim C4 -/

/-- C4: given no pre-existing record, `downloadMosaic` aborts with an error
iff the catalog search returned zero scenes; and when the catalog is
non-empty but every selected scene's fetch fails, the run still completes:
it returns (and persists, retrievably) a record with `tileCount = 0`, the
last reported stage being `complete`. -/
theorem downloadMosaic_failure_semantics (env : DownloadEnv) (s : Store)
    (year : Int) (b : Bbox) (maxZoom tileSize : Nat)
    (hmiss : getMosaicInfo s year b = none) :
    ((∃ msg, (downloadMosaic env s year b maxZoom tileSize).result = .error msg) ↔
      env.catalog = []) ∧
    ((∀ sc ∈ selectBestScenes env.catalog 5, ∀ href, sc.visualHref = some href →
        env.fetchScene href = none) → env.catalog ≠ [] →
      ∃ rec, (downloadMosaic env s year b maxZoom tileSize).result = .ok rec ∧
        rec.tileCount = 0 ∧
        (downloadMosaic env s year b maxZoom tileSize).stages.getLast? = some .complete ∧
        getMosaicInfo (downloadMosaic env s year b maxZoom tileSize).store year b = some rec) := by
  unfold downloadMosaic
  rw [hmiss]
  cases hcat : env.catalog with
  | nil => simp
  | cons c t =>
    constructor
    · simp
    · intro hfail _
      have hps : (processScenes env (selectBestScenes (c :: t) 5)).1 = [] := by
        rw [← hcat] at hfail ⊢
        exact processScenes_all_fail env _ hfail
      rcases hpse : processScenes env (selectBestScenes (c :: t) 5) with ⟨ps, fc⟩
      rw [hpse] at hps
      simp only at hps
      subst hps
      simp only [List.length_cons, Nat.succ_ne_zero, if_false, hpse,
        generateTiles_no_scenes]
      refine ⟨_, rfl, rfl, rfl, ?_⟩
      exact getMosaicInfo_saveMosaicInfo year b s _ rfl

theorem downloadMosaic_failure_semantics_witness :
    getMosaicInfo ([] : Store) 2020 exBbox = none ∧
    (∃ rec, (downloadMosaic c4Env [] 2020 exBbox 3 256).result = .ok rec ∧
      rec.tileCount = 0 ∧
      (downloadMosaic c4Env [] 2020 exBbox 3 256).stages.getLast? = some .complete ∧
      getMosaicInfo (downloadMosaic c4Env [] 2020 exBbox 3 256).store 2020 exBbox = some rec) :=
  ⟨rfl,
    (downloadMosaic_failure_semantics c4Env [] 2020 exBbox 3 256 rfl).2
      (fun _ _ _ _ => rfl) (by simp [c4Env])⟩

/-! ## Claim C2 -/

/-- C2: when a readable mosaic record already exists for `(year, bbox)`,
`downloadMosaic` returns exactly that record, leaves the store untouched,
reports `searching` then `complete` and nothing else, and performs zero
catalog calls, zero scene fetches and zero tile writes. -/
theorem downloadMosaic_cache_hit (env : DownloadEnv) (s : Store) (year : Int)
    (b : Bbox) (maxZoom tileSize : Nat) (r : MosaicRecord)
    (h : getMosaicInfo s year b = some r) :
    downloadMosaic env s year b maxZoom tileSize =
      { result := .ok r, store := s, stages := [.searching, .complete],
        catalogCalls := 0, fetchCalls := 0, tileWrites := 0 } := by
  unfold downloadMosaic
  rw [h]

theorem downloadMosaic_cache_hit_witness :
    getMosaicInfo c2Store 2020 exBbox = some c2Rec ∧
    downloadMosaic c2Env c2Store 2020 exBbox 10 256 =
      { result := .ok c2Rec, store := c2Store, stages := [.searching, .complete],
        catalogCalls := 0, fetchCalls := 0, tileWrites := 0 } :=
  ⟨by decide, downloadMosaic_cache_hit c2Env c2Store 2020 exBbox 10 256 c2Rec (by decide)⟩

/-! ## Lemmas about cleanup -/

theorem cleanup_count (cutoff : Int) :
    ∀ (ms : List MosaicRecord) (s0 : Store) (c0 : Nat),
      (ms.foldl (fun acc m => if m.downloadDate < cutoff then
          (deleteMosaic acc.1 m.year m.bbox, acc.2 + 1) else acc) (s0, c0)).2
        = c0 + (ms.filter (fun m => decide (m.downloadDate < cutoff))).length
  | [], s0, c0 => by simp
  | m :: t, s0, c0 => by
    by_cases h : m.downloadDate < cutoff
    · simp only [List.foldl_cons, if_pos h]
      rw [cleanup_count cutoff t]
      simp [h]
      omega
    · simp only [List.foldl_cons, if_neg h]
      rw [cleanup_count cutoff t]
      simp [h]

theorem cleanup_state (cutoff : Int) :
    ∀ (ms : List MosaicRecord) (s0 : Store) (c0 : Nat),
      (ms.foldl (fun acc m => if m.downloadDate < cutoff then
          (deleteMosaic acc.1 m.year m.bbox, acc.2 + 1) else acc) (s0, c0)).1
        = s0.filter (fun e =>
            decide (e.1 ∉ (ms.filter (fun m => decide (m.downloadDate < cutoff))).map
              (fun m => generateMosaicHash m.year m.bbox)))
  | [], s0, c0 => by simp
  | m :: t, s0, c0 => by
    by_cases h : m.downloadDate < cutoff
    · simp only [List.foldl_cons, if_pos h]
      rw [cleanup_state cutoff t]
      unfold deleteMosaic
      rw [List.filter_filter]
      refine List.filter_congr fun e _ => ?_
      by_cases h1 : e.1 = generateMosaicHash m.year m.bbox <;>
        by_cases h2 : e.1 ∈ (t.filter (fun m => decide (m.downloadDate < cutoff))).map
          (fun m => generateMosaicHash m.year m.bbox) <;>
        simp [h, h1, h2]
    · simp only [List.foldl_cons, if_neg h]
      rw [cleanup_state cutoff t]
      refine List.filter_congr fun e _ => ?_
      simp [h]

theorem nodup_keys_unique :
    ∀ s : Store, (s.map Prod.fst).Nodup →
      ∀ e₁ ∈ s, ∀ e₂ ∈ s, e₁.1 = e₂.1 → e₁ = e₂
  | [], _, _, h, _, _, _ => absurd h (List.not_mem_nil _)
  | a :: t, hnd, e₁, h₁, e₂, h₂, hk => by
    rw [List.map_cons, List.nodup_cons] at hnd
    rcases List.mem_cons.mp h₁ with rfl | h₁' <;> rcases List.mem_cons.mp h₂ with rfl | h₂'
    · rfl
    · exact absurd (by rw [hk]; exact List.mem_map.mpr ⟨e₂, h₂', rfl⟩) hnd.1
    · exact absurd (by rw [← hk]; exact List.mem_map.mpr ⟨e₁, h₁', rfl⟩) hnd.1
    · exact nodup_keys_unique t hnd.2 e₁ h₁' e₂ h₂' hk

theorem dirOld_iff (cutoff : Int) (d : MosaicDir) :
    dirOld cutoff d = true ↔
      ∃ r, d.metadata = some (.parsable r) ∧ r.downloadDate < cutoff := by
  unfold dirOld
  cases h : d.metadata with
  | none => simp
  | some c => cases c with
    | parsable r => simp
    | garbage => simp

theorem wfEntry_hash (e : String × MosaicDir) (r : MosaicRecord)
    (hwf : wfEntry e = true) (h : e.2.metadata = some (.parsable r)) :
    e.1 = generateMosaicHash r.year r.bbox := by
  unfold wfEntry at hwf
  rw [h] at hwf
  exact beq_iff_eq.mp hwf

/-- In a well-formed store with distinct directory names, a directory name
occurs among the hashes of the stale records iff that directory itself holds
a stale record. -/
theorem mem_staleNames_iff (s : Store) (cutoff : Int) (hwf : WFStore s)
    (hnd : (s.map Prod.fst).Nodup) (e : String × MosaicDir) (he : e ∈ s) :
    e.1 ∈ ((listMosaics s).filter (fun m => decide (m.downloadDate < cutoff))).map
        (fun m => generateMosaicHash m.year m.bbox) ↔
      dirOld cutoff e.2 = true := by
  constructor
  · intro hm
    rcases List.mem_map.mp hm with ⟨m, hmf, hhash⟩
    rcases List.mem_filter.mp hmf with ⟨hml, hold⟩
    rcases (mem_listMosaics m s).mp hml with ⟨e', he', hmeta⟩
    have hkey : e'.1 = e.1 := by
      rw [wfEntry_hash e' m (hwf e' he') hmeta, hhash]
    have hee : e' = e := nodup_keys_unique s hnd e' he' e he hkey
    rw [← hee]
    exact (dirOld_iff cutoff e'.2).mpr ⟨m, hmeta, of_decide_eq_true hold⟩
  · intro hold
    rcases (dirOld_iff cutoff e.2).mp hold with ⟨r, hmeta, hr⟩
    have hml : r ∈ listMosaics s := (mem_listMosaics r s).mpr ⟨e, he, hmeta⟩
    have : r ∈ (listMosaics s).filter (fun m => decide (m.downloadDate < cutoff)) :=
      List.mem_filter.mpr ⟨hml, decide_eq_true hr⟩
    exact List.mem_map.mpr ⟨r, this, (wfEntry_hash e r (hwf e he) hmeta).symm⟩

/-- Closed form of one `cleanupOldMosaics` run on a well-formed store:
the surviving entries are exactly the non-stale ones (kept verbatim, tiles
included), and the returned count is the number of stale records listed. -/
theorem cleanupOldMosaics_eq (s : Store) (now days : Int) (hwf : WFStore s)
    (hnd : (s.map Prod.fst).Nodup) :
    cleanupOldMosaics s now days =
      (s.filter (fun e => !dirOld (now - days) e.2),
       ((listMosaics s).filter (fun m => decide (m.downloadDate < now - days))).length) := by
  unfold cleanupOldMosaics
  refine Prod.ext ?_ ?_
  · rw [cleanup_state (now - days) (listMosaics s) s 0]
    refine List.filter_congr fun e he => ?_
    by_cases hd : dirOld (now - days) e.2 = true
    · simp [hd, (mem_staleNames_iff s (now - days) hwf hnd e he).mpr hd]
    · have : e.1 ∉ ((listMosaics s).filter
          (fun m => decide (m.downloadDate < now - days))).map
          (fun m => generateMosaicHash m.year m.bbox) := fun hc =>
        hd ((mem_staleNames_iff s (now - days) hwf hnd e he).mp hc)
      simp [this, Bool.eq_false_iff.mpr hd]
  · rw [cleanup_count (now - days) (listMosaics s) s 0]
    simp

/-! ## Claim C7 -/

/-- C7: on a well-formed store (each record stored under the hash of its
own key, directory names distinct), `cleanupOldMosaics` deletes exactly the
entries whose record is older than `now - days` — every other entry survives
verbatim, tiles included — returns the number of records deleted, and an
immediately repeated call deletes nothing and changes nothing. -/
theorem cleanupOldMosaics_deletes_exactly_old_and_idempotent (s : Store)
    (now days : Int) (hwf : WFStore s) (hnd : (s.map Prod.fst).Nodup) :
    (cleanupOldMosaics s now days).1 = s.filter (fun e => !dirOld (now - days) e.2) ∧
    (cleanupOldMosaics s now days).2 =
      ((listMosaics s).filter (fun m => decide (m.downloadDate < now - days))).length ∧
    cleanupOldMosaics (cleanupOldMosaics s now days).1 now days =
      ((cleanupOldMosaics s now days).1, 0) := by
  have h := cleanupOldMosaics_eq s now days hwf hnd
  have hsub : (s.filter (fun e => !dirOld (now - days) e.2)).Sublist s :=
    List.filter_sublist s
  have hwf' : WFStore (s.filter (fun e => !dirOld (now - days) e.2)) :=
    fun e he => hwf e (List.mem_filter.mp he).1
  have hnd' : ((s.filter (fun e => !dirOld (now - days) e.2)).map Prod.fst).Nodup :=
    (hsub.map Prod.fst).nodup hnd
  have h' := cleanupOldMosaics_eq (s.filter (fun e => !dirOld (now - days) e.2))
    now days hwf' hnd'
  have hnone : (listMosaics (s.filter (fun e => !dirOld (now - days) e.2))).filter
      (fun m => decide (m.downloadDate < now - days)) = [] := by
    rw [List.filter_eq_nil_iff]
    intro m hm
    rcases (mem_listMosaics m _).mp hm with ⟨e, he, hmeta⟩
    rcases List.mem_filter.mp he with ⟨_, hkeep⟩
    intro hlt
    have : dirOld (now - days) e.2 = true :=
      (dirOld_iff _ _).mpr ⟨m, hmeta, of_decide_eq_true hlt⟩
    rw [this] at hkeep
    exact absurd hkeep (by simp)
  have hself : (s.filter (fun e => !dirOld (now - days) e.2)).filter
      (fun e => !dirOld (now - days) e.2) =
        s.filter (fun e => !dirOld (now - days) e.2) :=
    List.filter_eq_self.mpr fun e he => (List.mem_filter.mp he).2
  refine ⟨by rw [h], by rw [h], ?_⟩
  rw [h]
  simp only
  rw [h', hnone, hself]
  rfl

theorem cleanupOldMosaics_deletes_exactly_old_and_idempotent_witness :
    WFStore c7Store ∧ (c7Store.map Prod.fst).Nodup ∧
    (cleanupOldMosaics c7Store 100 30).1 =
      c7Store.filter (fun e => !dirOld 70 e.2) ∧
    (cleanupOldMosaics c7Store 100 30).2 = 1 ∧
    cleanupOldMosaics (cleanupOldMosaics c7Store 100 30).1 100 30 =
      ((cleanupOldMosaics c7Store 100 30).1, 0) := by
  have hwf : WFStore c7Store := by unfold WFStore; decide
  have hnd : (c7Store.map Prod.fst).Nodup := by decide
  have h := cleanupOldMosaics_deletes_exactly_old_and_idempotent c7Store 100 30 hwf hnd
  refine ⟨hwf, hnd, h.1, ?_, h.2.2⟩
  rw [h.2.1]
  decide

/-! ## Claim C8 -/

instance : IsTotal Scene sceneLE := by
  constructor
  intro a b
  unfold sceneLE
  rcases lt_trichotomy a.cloudCover b.cloudCover with h | h | h
  · exact Or.inl (Or.inl h)
  · rcases le_total b.sunElevation a.sunElevation with hs | hs
    · exact Or.inl (Or.inr ⟨h, hs⟩)
    · exact Or.inr (Or.inr ⟨h.symm, hs⟩)
  · exact Or.inr (Or.inl h)

instance : IsTrans Scene sceneLE := by
  constructor
  rintro a b c (h1 | ⟨he1, hs1⟩) (h2 | ⟨he2, hs2⟩)
  · exact Or.inl (h1.trans h2)
  · exact Or.inl (lt_of_lt_of_eq h1 he2)
  · exact Or.inl (lt_of_eq_of_lt he1 h2)
  · exact Or.inr ⟨he1.trans he2, hs2.trans hs1⟩

/-- C8: `selectBestScenes` returns the first `n` of a stable sort of the
scenes by cloud cover ascending, ties broken by sun elevation descending;
on the spec's eight-scene catalog (`N = 5`) it picks the scenes with covers
`[3,5,8,11,12]`; a cloud-cover tie is won by the higher sun elevation; and
the orchestrator run at `maxZoom = 2` performs `1 + 4 + 16 = 21` tile
writes and persists a record with `tileCount = 21` listing the five
selected scene ids. -/
theorem selectBestScenes_sorts_and_example_tiles_21 :
    (∀ (items : List Scene) (n : Nat), ∃ sorted : List Scene,
      List.Perm sorted items ∧ List.Sorted sceneLE sorted ∧
        selectBestScenes items n = sorted.take n) ∧
    (selectBestScenes c8Scenes 5).map (·.cloudCover) = [3, 5, 8, 11, 12] ∧
    (selectBestScenes [⟨"a", 5, 10, none⟩, ⟨"b", 5, 50, none⟩] 2).map (·.id) =
      ["b", "a"] ∧
    (downloadMosaic c8Env [] 2020 exBbox 2 256).tileWrites = 21 ∧
    (downloadMosaic c8Env [] 2020 exBbox 2 256).result.toOption.map (·.tileCount) =
      some 21 ∧
    (downloadMosaic c8Env [] 2020 exBbox 2 256).result.toOption.map (·.scenes) =
      some ["s5", "s1", "s4", "s8", "s2"] := by
  refine ⟨fun items n => ⟨items.insertionSort sceneLE,
    items.perm_insertionSort sceneLE, items.sorted_insertionSort sceneLE, rfl⟩,
    ?_, ?_, ?_, ?_, ?_⟩ <;> decide

/-! ## Claim C5 (corrected) -/

/-- C5 counterexample: the route has no range check on `zoom/x/y` — a
request with the out-of-range coordinate `zoom = -1` on an existing mosaic
falls through to the tile lookup and answers 404, not the 400 the claim
requires; and the success header is `Cache-Control: public, max-age=31536000`
without the claimed `, immutable` suffix. -/
theorem routeGET_counterexample :
    (routeGET c5Store [generateMosaicHash 2020 exBbox, "-1", "0", "0.png"]).status = 404 ∧
    (routeGET c5Store [generateMosaicHash 2020 exBbox, "0", "0", "0.png"]).status = 200 ∧
    (routeGET c5Store [generateMosaicHash 2020 exBbox, "0", "0", "0.png"]).cacheControl =
      some "public, max-age=31536000" ∧
    ("public, max-age=31536000" : String) ≠ "public, max-age=31536000, immutable" := by
  refine ⟨?_, ?_, ?_, ?_⟩ <;> decide

/-- C5 amended: the tile GET endpoint responds 400 for a too-short path, a
non-numeric zoom/x/y, or an unsupported format (there is no range
validation: out-of-range numeric coordinates are looked up and yield 404);
404 for an unknown hash or a missing tile; and on success 200 with the
binary tile body, `Content-Type: image/<format>` and
`Cache-Control: public, max-age=31536000` (no `immutable`). -/
theorem routeGET_spec (s : Store) (hash zs xs yext ys ext : String)
    (hy0 : (jsSplit yext '.').getD 0 "" = ys)
    (hy1 : (jsSplit yext '.').getD 1 "" = ext) :
    (∀ ps : List String, ps.length < 4 → (routeGET s ps).status = 400) ∧
    (jsParseInt zs = none ∨ jsParseInt xs = none ∨ jsParseInt ys = none →
      (routeGET s [hash, zs, xs, yext]).status = 400) ∧
    (¬(ext = "png" ∨ ext = "jpg" ∨ ext = "webp") →
      (routeGET s [hash, zs, xs, yext]).status = 400) ∧
    (∀ z x y, jsParseInt zs = some z → jsParseInt xs = some x →
      jsParseInt ys = some y → (ext = "png" ∨ ext = "jpg" ∨ ext = "webp") →
      ((listMosaics s).find? (fun m => m.hash == hash) = none →
        (routeGET s [hash, zs, xs, yext]).status = 404) ∧
      (∀ m, (listMosaics s).find? (fun m => m.hash == hash) = some m →
        (getTile s m.year m.bbox z x y ext = none →
          (routeGET s [hash, zs, xs, yext]).status = 404) ∧
        (∀ data, getTile s m.year m.bbox z x y ext = some data →
          routeGET s [hash, zs, xs, yext] =
            { status := 200, contentType := some ("image/" ++ ext),
              cacheControl := some "public, max-age=31536000",
              body := some data }))) := by
  have hred : routeGET s [hash, zs, xs, yext] =
      (if zs = "" ∨ xs = "" ∨ ys = "" ∨ ext = "" then
        { status := 400, contentType := none, cacheControl := none, body := none }
      else
        match jsParseInt zs, jsParseInt xs, jsParseInt ys with
        | some zoom, some tileX, some tileY =>
          if ext = "png" ∨ ext = "jpg" ∨ ext = "webp" then
            match (listMosaics s).find? (fun m => m.hash == hash) with
            | none =>
              { status := 404, contentType := none, cacheControl := none, body := none }
            | some mosaic =>
              match getTile s mosaic.year mosaic.bbox zoom tileX tileY ext with
              | none =>
                { status := 404, contentType := none, cacheControl := none, body := none }
              | some tileData =>
                { status := 200, contentType := some ("image/" ++ ext),
                  cacheControl := some "public, max-age=31536000",
                  body := some tileData }
          else
            { status := 400, contentType := none, cacheControl := none, body := none }
        | _, _, _ =>
          { status := 400, contentType := none, cacheControl := none, body := none }) := by
    unfold routeGET
    rw [if_neg (by simp)]
    simp only [List.getD_cons_zero, List.getD_cons_succ]
    rw [hy0, hy1]
  refine ⟨?_, ?_, ?_, ?_⟩
  · intro ps hps
    unfold routeGET
    rw [if_pos hps]
  · intro hp
    rw [hred]
    by_cases hb : zs = "" ∨ xs = "" ∨ ys = "" ∨ ext = ""
    · rw [if_pos hb]
    · rw [if_neg hb]
      rcases h1 : jsParseInt zs with _ | z <;>
        rcases h2 : jsParseInt xs with _ | x <;>
        rcases h3 : jsParseInt ys with _ | y <;>
        simp_all
  · intro hfmt
    rw [hred]
    by_cases hb : zs = "" ∨ xs = "" ∨ ys = "" ∨ ext = ""
    · rw [if_pos hb]
    · rw [if_neg hb]
      rcases h1 : jsParseInt zs with _ | z <;>
        rcases h2 : jsParseInt xs with _ | x <;>
        rcases h3 : jsParseInt ys with _ | y <;>
        simp_all
  · intro z x y hz hx hy hfmt
    have hner : ¬(zs = "" ∨ xs = "" ∨ ys = "" ∨ ext = "") := by
      rintro (h | h | h | h)
      · rw [h] at hz; exact Option.noConfusion hz
      · rw [h] at hx; exact Option.noConfusion hx
      · rw [h] at hy; exact Option.noConfusion hy
      · rcases hfmt with hf | hf | hf <;> rw [h] at hf <;> exact absurd hf (by decide)
    constructor
    · intro hfind
      rw [hred, if_neg hner, hz, hx, hy]
      simp only [if_pos hfmt, hfind]
    · intro m hfind
      constructor
      · intro htile
        rw [hred, if_neg hner, hz, hx, hy]
        simp only [if_pos hfmt, hfind, htile]
      · intro data htile
        rw [hred, if_neg hner, hz, hx, hy]
        simp only [if_pos hfmt, hfind, htile]

theorem routeGET_spec_witness :
    ((["0", "png"] : List String).getD 0 "" = "0") ∧
    ((jsSplit "0.png" '.').getD 1 "" = "png") ∧
    jsParseInt "0" = some 0 ∧
    (listMosaics c5Store).find? (fun m => m.hash == generateMosaicHash 2020 exBbox) =
      some c2Rec ∧
    getTile c5Store c2Rec.year c2Rec.bbox 0 0 0 "png" = some [7, 8, 9] ∧
    routeGET c5Store [generateMosaicHash 2020 exBbox, "0", "0", "0.png"] =
      { status := 200, contentType := some ("image/" ++ "png"),
        cacheControl := some "public, max-age=31536000", body := some [7, 8, 9] } :=
  ⟨rfl, rfl, rfl, by decide, by decide,
    ((((routeGET_spec c5Store (generateMosaicHash 2020 exBbox) "0" "0" "0.png" "0" "png"
        rfl rfl).2.2.2 0 0 0 rfl rfl rfl (Or.inl rfl)).2 c2Rec (by decide)).2 [7, 8, 9]
      (by decide))⟩

end CPV
